import Mathlib

/-
Shallow embedding of the mcp-server-stalwart repository (a JMAP mail client
together with a tool-invocation router). JSON values are modelled by the
inductive JValue; serde_json objects are modelled as ordered association
lists; Rust HashMap session fields are modelled as association lists with
List.lookup. Fallible Rust code (anyhow Result) is modelled with Except,
and a Rust index panic (out-of-bounds Vec indexing) is modelled by a
distinguished crash outcome.
-/

namespace Stalwart

/-- Model of serde_json Value: null, booleans, integers, strings, arrays,
objects (ordered field lists). -/
inductive JValue where
  | null
  | bool (b : Bool)
  | num (n : Nat)
  | str (s : String)
  | arr (xs : List JValue)
  | obj (fields : List (String × JValue))

/-- Field lookup in an object field list, first match wins (serde_json map
lookup). -/
def lookupField : List (String × JValue) → String → Option JValue
  | [], _ => none
  | (k, v) :: rest, key => if k == key then some v else lookupField rest key

/-- Model of serde_json Value indexing by a string key: returns the field
value for objects that have the key, and Null otherwise. -/
def JValue.getField (v : JValue) (key : String) : JValue :=
  match v with
  | .obj fields => (lookupField fields key).getD .null
  | _ => .null

/-- Model of Value.as_array. -/
def JValue.asArr : JValue → Option (List JValue)
  | .arr xs => some xs
  | _ => none

/-- Model of Value.as_str. -/
def JValue.asStr : JValue → Option String
  | .str s => some s
  | _ => none

/- ===== ProtocolClient: batched call decoding (src/jmap.rs, call_multi) ===== -/

/-- Outcome of the response-decoding loop of call_multi: crash models a Rust
index panic, err models the bail on an error-tagged entry (carrying the
entry payload at index 1), ok carries the collected per-call payloads. -/
inductive DecodeOutcome where
  | crash
  | err (e : JValue)
  | ok (results : List JValue)

/-- Rust: call[0].as_str() == Some("error"). -/
def isErrorTag : JValue → Bool
  | .str s => s == "error"
  | _ => false

/-- Whether a response entry has the error discriminant in its first
element. -/
def hasErrorAt (call : List JValue) : Bool :=
  match call.get? 0 with
  | some t => isErrorTag t
  | none => false

/-- The loop of call_multi over resp.method_responses (src/jmap.rs lines
99-107): for each entry, index 0 is tested for the error tag (bailing with
the payload at index 1), else the payload at index 1 is collected. Indexing
a Vec out of bounds panics, modelled by crash. -/
def decodeResponses : List (List JValue) → DecodeOutcome
  | [] => .ok []
  | call :: rest =>
    match call.get? 0 with
    | none => .crash
    | some tag =>
      if isErrorTag tag then
        match call.get? 1 with
        | none => .crash
        | some e => .err e
      else
        match call.get? 1 with
        | none => .crash
        | some r =>
          match decodeResponses rest with
          | .ok results => .ok (r :: results)
          | other => other

/- ===== ProtocolClient: connect (src/jmap.rs, connect) ===== -/

/-- Session account metadata (src/jmap.rs AccountInfo). -/
structure AccountInfo where
  name : String

/-- Decoded JMAP session payload (src/jmap.rs Session); the two HashMap
fields are modelled as association lists. -/
structure Session where
  api_url : String
  accounts : List (String × AccountInfo)
  primary_accounts : List (String × String)

/-- Account-resolution failures of connect. -/
inductive ConnectError where
  | noMailAccount
  | accountInconsistent (id : String)

/-- The client state retained after connect (src/jmap.rs JmapClient; the
HTTP handle carries no protocol state and is omitted). -/
structure JmapClient where
  api_url : String
  username : String
  password : String
  account_id : String

/-- Account resolution of connect on a decoded session payload (src/jmap.rs
lines 49-65): take the primary account for the mail capability, fail if
absent, fail if it is not a key of the accounts map, else build the
client. -/
def connect (session : Session) (username password : String) :
    Except ConnectError JmapClient :=
  match session.primary_accounts.lookup "urn:ietf:params:jmap:mail" with
  | none => .error .noMailAccount
  | some account_id =>
    if (session.accounts.lookup account_id).isSome then
      .ok { api_url := session.api_url, username := username,
            password := password, account_id := account_id }
    else
      .error (.accountInconsistent account_id)

/- ===== ProtocolClient: get_emails request (src/jmap.rs, get_emails) ===== -/

/-- The Email/get argument object built by get_emails (src/jmap.rs lines
146-158), field for field in source order. -/
def get_emails_request (account_id : String) (ids : List String) : JValue :=
  .obj [
    ("accountId", .str account_id),
    ("#ids", .obj [("resultOf", .null), ("name", .null), ("path", .null)]),
    ("ids", .arr (ids.map .str)),
    ("properties", .arr ([
      "id", "threadId", "mailboxIds", "from", "to", "cc", "bcc",
      "subject", "receivedAt", "sentAt", "size", "keywords",
      "preview", "textBody", "htmlBody", "bodyValues"].map .str)),
    ("fetchTextBodyValues", .bool true),
    ("fetchHTMLBodyValues", .bool true),
    ("maxBodyValueBytes", .num 65536)]

/- ===== ProtocolClient: send workflow (src/jmap.rs, send_email) ===== -/

/-- to/cc/bcc address-object assembly: each address becomes an object with
one email field. -/
def addrObjs (xs : List String) : List JValue :=
  xs.map (fun a => .obj [("email", .str a)])

/-- Whether a JSON object has a top-level field with the given key. -/
def hasKey (v : JValue) (key : String) : Bool :=
  match v with
  | .obj fields => fields.any (fun f => f.1 == key)
  | _ => false

/-- The draft email object built by send_email (src/jmap.rs lines 209-228):
the fixed base fields, then the cc field appended only when the cc address
list is non-empty, then likewise for bcc. -/
def buildDraftEmail (fromAddr : String) (toRcpt cc bcc : List String)
    (subject body drafts_id : String) : JValue :=
  let base : List (String × JValue) := [
    ("from", .arr [.obj [("email", .str fromAddr)]]),
    ("to", .arr (addrObjs toRcpt)),
    ("subject", .str subject),
    ("bodyValues", .obj [("body", .obj [("value", .str body),
                                        ("charset", .str "utf-8")])]),
    ("textBody", .arr [.obj [("partId", .str "body"),
                             ("type", .str "text/plain")]]),
    ("mailboxIds", .obj [(drafts_id, .bool true)])]
  let withCc := if (addrObjs cc).isEmpty then base
                else base ++ [("cc", .arr (addrObjs cc))]
  let withBcc := if (addrObjs bcc).isEmpty then withCc
                 else withCc ++ [("bcc", .arr (addrObjs bcc))]
  .obj withBcc

/-- get_drafts_mailbox_id applied to the Mailbox/get response payload
(src/jmap.rs lines 170-180): scan the list for the entry whose role is
drafts and extract its id. -/
def get_drafts_mailbox_id (result : JValue) : Except String String :=
  match (result.getField "list").asArr with
  | none => .error "no drafts mailbox found"
  | some list =>
    match list.find? (fun m => (m.getField "role").asStr == some "drafts") with
    | none => .error "no drafts mailbox found"
    | some m =>
      match (m.getField "id").asStr with
      | none => .error "no drafts mailbox found"
      | some s => .ok s

/-- get_identity_id applied to the Identity/get response payload
(src/jmap.rs lines 182-190): take the first list entry and extract its
id. -/
def get_identity_id (result : JValue) : Except String String :=
  match (result.getField "list").asArr with
  | none => .error "no identity found for this account"
  | some list =>
    match list.head? with
    | none => .error "no identity found for this account"
    | some idv =>
      match (idv.getField "id").asStr with
      | none => .error "no identity found for this account"
      | some s => .ok s

/-- Extraction of the returned value from the batch results of send_email
(src/jmap.rs line 258): results.into_iter().last() with a context message
when empty. -/
def submission_result (results : List JValue) : Except String JValue :=
  match results.getLast? with
  | some r => .ok r
  | none => .error "no submission response"

/-- The network calls send_email can issue, in the order the source
performs them. -/
inductive SendStep where
  | identityGet
  | mailboxGet
  | submitBatch
deriving DecidableEq

/-- Server responses supplied to one run of send_email: the Identity/get
payload, the Mailbox/get payload, and the raw methodResponses array of the
final two-call batch. -/
structure SendEnv where
  identityResp : JValue
  mailboxResp : JValue
  batchResp : List (List JValue)

/-- Error outcomes of send_email: context-message errors from the
resolution steps and the empty-batch case, or the JMAP error payload from
an error-tagged batch entry. -/
inductive SendErr where
  | msg (s : String)
  | jmapError (e : JValue)

/-- Result of a send_email run; crash models a Rust index panic inside the
batch decoding loop. -/
inductive SendResult where
  | crash
  | error (e : SendErr)
  | ok (v : JValue)

/-- Observable record of one send_email run: the network calls issued in
order, the two-call batch request when one was built, and the result. -/
structure SendRun where
  trace : List SendStep
  batchRequest : Option (List (String × JValue × String))
  result : SendResult

/-- send_email (src/jmap.rs lines 192-259), following the source order:
resolve the identity id first (line 201), then the drafts mailbox id
(line 207), then build the draft object and the two-call batch
(Email/set creating the draft, EmailSubmission/set referencing it by the
creation reference token) and decode the batch response, returning the
last entry. -/
def send_email (env : SendEnv) (account_id fromAddr : String)
    (toRcpt : List String) (subject body : String)
    (cc bcc : List String) : SendRun :=
  match get_identity_id env.identityResp with
  | .error e =>
    { trace := [.identityGet], batchRequest := none,
      result := .error (.msg e) }
  | .ok identity_id =>
    match get_drafts_mailbox_id env.mailboxResp with
    | .error e =>
      { trace := [.identityGet, .mailboxGet], batchRequest := none,
        result := .error (.msg e) }
    | .ok drafts_id =>
      let email := buildDraftEmail fromAddr toRcpt cc bcc subject body drafts_id
      let calls : List (String × JValue × String) := [
        ("Email/set",
         .obj [("accountId", .str account_id),
               ("create", .obj [("draft", email)])],
         "r0"),
        ("EmailSubmission/set",
         .obj [("accountId", .str account_id),
               ("create", .obj [("send",
                  .obj [("emailId", .str "#draft"),
                        ("identityId", .str identity_id)])]),
               ("onSuccessDestroyEmail", .arr [.str "#send"])],
         "r1")]
      let result := match decodeResponses env.batchResp with
        | .crash => SendResult.crash
        | .err e => SendResult.error (.jmapError e)
        | .ok results =>
          match submission_result results with
          | .ok v => SendResult.ok v
          | .error m => SendResult.error (.msg m)
      { trace := [.identityGet, .mailboxGet, .submitBatch],
        batchRequest := some calls, result := result }

/- ===== OperationRouter (src/server.rs) ===== -/

/-- The optional search parameters of the search_emails tool
(src/server.rs SearchParams); from and to are named fromAddr and toAddr. -/
structure SearchParams where
  query : Option String
  fromAddr : Option String
  toAddr : Option String
  subject : Option String
  mailbox_id : Option String
  position : Option Nat
  limit : Option Nat

/-- One conditional condition push: the singleton list when the parameter
is supplied, else nothing. -/
def condOf : Option String → (String → JValue) → List JValue
  | some v, f => [f v]
  | none, _ => []

/-- The leaf filter conditions built by search_emails (src/server.rs lines
77-93), one per supplied optional field, in source order. -/
def buildConditions (p : SearchParams) : List JValue :=
  condOf p.query (fun q => .obj [("text", .str q)]) ++
  condOf p.fromAddr (fun v => .obj [("from", .str v)]) ++
  condOf p.toAddr (fun v => .obj [("to", .str v)]) ++
  condOf p.subject (fun v => .obj [("subject", .str v)]) ++
  condOf p.mailbox_id (fun v => .obj [("inMailbox", .str v)])

/-- The filter collapse of search_emails (src/server.rs lines 95-101): one
condition is sent bare, zero conditions give the empty object, two or more
are AND-wrapped. -/
def buildFilter : List JValue → JValue
  | [c] => c
  | [] => .obj []
  | cs => .obj [("operator", .str "AND"), ("conditions", .arr cs)]

/-- The filter actually sent by the search_emails tool. -/
def searchFilter (p : SearchParams) : JValue :=
  buildFilter (buildConditions p)

/-- Position normalization of search_emails (src/server.rs line 103):
p.position.unwrap_or(0). -/
def search_position (position : Option Nat) : Nat :=
  position.getD 0

/-- Limit normalization of search_emails (src/server.rs line 104):
p.limit.unwrap_or(10).min(50). -/
def search_limit (limit : Option Nat) : Nat :=
  min (limit.getD 10) 50

/-- Outcome of the get_emails tool prior to rendering (src/server.rs lines
121-124): either the pre-network validation rejection of an empty id list
(an invalid-params error, distinct from a rendered protocol error), or
delegation to JmapClient.get_emails with the given ids — the only path
that issues a network call. -/
inductive GetEmailsOutcome where
  | validationError (msg : String)
  | delegate (ids : List String)
deriving DecidableEq

/-- The get_emails tool routing (src/server.rs lines 117-131). -/
def get_emails_route (ids : List String) : GetEmailsOutcome :=
  if ids.isEmpty then .validationError "ids must not be empty"
  else .delegate ids

/- ===== Concrete example inputs used to instantiate the theorems ===== -/

/-- A decoded session payload whose primary-accounts map lacks the mail
capability. -/
def sessionNoMail : Session :=
  { api_url := "https://mail.example.org/jmap/",
    accounts := [("acc-1", { name := "Main" })],
    primary_accounts := [] }

/-- A decoded session payload whose mail primary account is not a key of
the accounts map. -/
def sessionInconsistent : Session :=
  { api_url := "https://mail.example.org/jmap/",
    accounts := [("acc-1", { name := "Main" })],
    primary_accounts := [("urn:ietf:params:jmap:mail", "acc-2")] }

/-- A methodResponses array whose first entry succeeds and whose second
entry is error-tagged. -/
def respErrEx : List (List JValue) :=
  [[.str "Mailbox/get", .obj [("list", .arr [])], .str "r0"],
   [.str "error", .obj [("type", .str "unknownMethod")], .str "r1"]]

/-- A methodResponses array whose first entry is well formed and whose
second entry has only one element. -/
def respShortEx : List (List JValue) :=
  [[.str "Mailbox/get", .obj [("list", .arr [])], .str "r0"],
   [.str "error"]]

/-- Search parameters supplying no optional filter field. -/
def pEx0 : SearchParams :=
  { query := none, fromAddr := none, toAddr := none, subject := none,
    mailbox_id := none, position := none, limit := none }

/-- Search parameters supplying exactly one filter field. -/
def pEx1 : SearchParams :=
  { query := some "hello", fromAddr := none, toAddr := none,
    subject := none, mailbox_id := none, position := none, limit := some 5 }

/-- Search parameters supplying two filter fields. -/
def pEx2 : SearchParams :=
  { query := some "hello", fromAddr := some "alice@example.org",
    toAddr := none, subject := none, mailbox_id := none,
    position := none, limit := none }

/-- A send environment where identity resolution and drafts-mailbox
resolution would both succeed and the final batch succeeds. -/
def envOk : SendEnv :=
  { identityResp := .obj [("list", .arr [.obj [("id", .str "ident-1")]])],
    mailboxResp := .obj [("list", .arr [.obj [("id", .str "mb-drafts"),
                                              ("role", .str "drafts")]])],
    batchResp := [[.str "Email/set", .obj [], .str "r0"],
                  [.str "EmailSubmission/set", .obj [], .str "r1"]] }

/- ===== Theorems ===== -/

/-- C3: the search tool defaults position to 0 and limit to 10 when the
caller supplies neither, clamps every supplied limit to the hard ceiling
of 50 instead of rejecting it, and in particular supplied limits 0, 10,
50, 51, 1000 yield effective limits 0, 10, 50, 50, 50. -/
theorem search_limit_position_normalization :
    search_position none = 0
  ∧ search_limit none = 10
  ∧ (∀ l, search_limit (some l) = min l 50)
  ∧ (∀ l, search_limit l ≤ 50)
  ∧ search_limit (some 0) = 0
  ∧ search_limit (some 10) = 10
  ∧ search_limit (some 50) = 50
  ∧ search_limit (some 51) = 50
  ∧ search_limit (some 1000) = 50 :=
  ⟨rfl, rfl, fun _ => rfl, fun _ => min_le_right _ _,
   rfl, rfl, rfl, rfl, rfl⟩

/-- C7: the get_emails tool rejects an empty id list with the validation
error (the only outcome that issues no network call), and delegates every
non-empty id list to the protocol client unchanged. -/
theorem get_emails_empty_ids_validation (ids : List String) :
    (ids = [] → get_emails_route ids
        = .validationError "ids must not be empty")
  ∧ (ids ≠ [] → get_emails_route ids = .delegate ids) := by
  constructor
  · rintro rfl; rfl
  · intro h
    cases ids with
    | nil => exact absurd rfl h
    | cons a t => rfl

/-- Instantiation of the get_emails validation theorem at the empty list
and at a one-element list. -/
theorem get_emails_empty_ids_validation_witness :
    get_emails_route [] = GetEmailsOutcome.validationError "ids must not be empty"
  ∧ get_emails_route ["id1"] = GetEmailsOutcome.delegate ["id1"] :=
  ⟨(get_emails_empty_ids_validation []).1 rfl,
   (get_emails_empty_ids_validation ["id1"]).2 (by simp)⟩

/-- C4: on a two-entry batch result in request order, send returns the
last entry (the submission result), not the draft-creation result. -/
theorem send_returns_submission_entry (r0 r1 : JValue) :
    submission_result [r0, r1] = .ok r1
  ∧ (r0 ≠ r1 → submission_result [r0, r1] ≠ .ok r0) := by
  have h : submission_result [r0, r1] = .ok r1 := by
    simp [submission_result]
  exact ⟨h, fun hne hc => hne (by rw [h] at hc; exact (Except.ok.inj hc).symm)⟩

/-- Instantiation of the submission-result theorem at two distinct
payloads. -/
theorem send_returns_submission_entry_witness :
    submission_result [JValue.null, JValue.str "sent"]
      = Except.ok (JValue.str "sent")
  ∧ submission_result [JValue.null, JValue.str "sent"]
      ≠ Except.ok JValue.null :=
  ⟨(send_returns_submission_entry JValue.null (JValue.str "sent")).1,
   (send_returns_submission_entry JValue.null (JValue.str "sent")).2
     (fun h => JValue.noConfusion h)⟩

/-- C10: every Email/get request built by get_emails carries both the
literal ids array of the caller-supplied ids and the extra back-reference
field whose resultOf, name and path members are all null. -/
theorem get_emails_includes_backref (account_id : String) (ids : List String) :
    (get_emails_request account_id ids).getField "#ids"
      = JValue.obj [("resultOf", JValue.null), ("name", JValue.null),
                    ("path", JValue.null)]
  ∧ (get_emails_request account_id ids).getField "ids"
      = JValue.arr (ids.map JValue.str) :=
  ⟨rfl, rfl⟩

/-- C5: the draft payload built by send carries a cc field exactly when
the supplied cc list is non-empty and a bcc field exactly when the
supplied bcc list is non-empty; empty lists are omitted entirely rather
than sent as empty arrays. -/
theorem send_omits_empty_cc_bcc (fromAddr : String) (toRcpt cc bcc : List String)
    (subject body drafts_id : String) :
    hasKey (buildDraftEmail fromAddr toRcpt cc bcc subject body drafts_id) "cc"
      = !cc.isEmpty
  ∧ hasKey (buildDraftEmail fromAddr toRcpt cc bcc subject body drafts_id) "bcc"
      = !bcc.isEmpty := by
  cases cc <;> cases bcc <;> exact ⟨rfl, rfl⟩

/-- Helper: the decoding loop fails with an error payload whenever all
entries are pair-or-longer and some entry is error-tagged. -/
theorem decodeResponses_err_of_any_error :
    ∀ resp : List (List JValue), (∀ c ∈ resp, 2 ≤ c.length) →
      resp.any hasErrorAt = true → ∃ e, decodeResponses resp = .err e := by
  intro resp
  induction resp with
  | nil => intro _ h; simp at h
  | cons c rest ih =>
    intro hlen herr
    cases c with
    | nil => exact absurd (hlen [] (by simp)) (by simp)
    | cons t ctail =>
      cases ctail with
      | nil =>
        have h1 := hlen [t] (by simp)
        simp at h1
      | cons r ct =>
        by_cases ht : isErrorTag t = true
        · exact ⟨r, by simp [decodeResponses, ht]⟩
        · have ht' : isErrorTag t = false := by
            rwa [Bool.not_eq_true] at ht
          have herr' : rest.any hasErrorAt = true := by
            simpa [List.any_cons, hasErrorAt, ht'] using herr
          obtain ⟨e, he⟩ :=
            ih (fun x hx => hlen x (List.mem_cons_of_mem _ hx)) herr'
          exact ⟨e, by simp [decodeResponses, ht', he]⟩

/-- C1: whenever every entry of the decoded methodResponses array is a
well-formed pair-or-longer entry and some entry carries the error
discriminant in its first element, the decoding loop of call_multi fails
with the error payload of an error-tagged entry and never returns a list
of successful results. -/
theorem invoke_batch_fails_on_error_entry (resp : List (List JValue))
    (hlen : ∀ c ∈ resp, 2 ≤ c.length)
    (herr : resp.any hasErrorAt = true) :
    (∃ e, decodeResponses resp = .err e)
  ∧ ∀ rs, decodeResponses resp ≠ .ok rs := by
  obtain ⟨e, he⟩ := decodeResponses_err_of_any_error resp hlen herr
  exact ⟨⟨e, he⟩, fun rs hc => by
    rw [he] at hc; exact DecodeOutcome.noConfusion hc⟩

/-- Instantiation of the batch-error theorem at a two-entry response whose
first entry succeeds and whose second is error-tagged. -/
theorem invoke_batch_fails_on_error_entry_witness :
    (∀ c ∈ respErrEx, 2 ≤ c.length)
  ∧ respErrEx.any hasErrorAt = true
  ∧ ∃ e, decodeResponses respErrEx = DecodeOutcome.err e :=
  ⟨by decide, by decide,
   (invoke_batch_fails_on_error_entry respErrEx (by decide) (by decide)).1⟩

/-- Helper: the decoding loop panics on the first short entry after a
prefix of well-formed non-error entries. -/
theorem decodeResponses_crash_append :
    ∀ pre post : List (List JValue), ∀ entry : List JValue,
      (∀ c ∈ pre, 2 ≤ c.length ∧ hasErrorAt c = false) →
      entry.length < 2 →
      decodeResponses (pre ++ entry :: post) = .crash := by
  intro pre
  induction pre with
  | nil =>
    intro post entry _ hshort
    cases entry with
    | nil => simp [decodeResponses]
    | cons t ctail =>
      cases ctail with
      | nil => by_cases ht : isErrorTag t = true <;>
          simp [decodeResponses, ht]
      | cons r ct => exact absurd hshort (by simp)
  | cons c pre ih =>
    intro post entry hpre hshort
    obtain ⟨hc2, hce⟩ := hpre c (by simp)
    cases c with
    | nil => simp at hc2
    | cons t ctail =>
      cases ctail with
      | nil => simp at hc2
      | cons r ct =>
        have ht' : isErrorTag t = false := by
          simpa [hasErrorAt] using hce
        have hrec := ih post entry
          (fun x hx => hpre x (List.mem_cons_of_mem _ hx)) hshort
        simp [decodeResponses, ht', hrec]

/-- C9: the decoding loop of call_multi is not total over decodable
response envelopes: a syntactically valid entry with fewer than two
elements, reached after any prefix of well-formed non-error entries, makes
the direct indexing at positions 0 and 1 go out of bounds, producing a
panic rather than a returned decode error. -/
theorem invoke_batch_short_entry_panics (pre post : List (List JValue))
    (entry : List JValue)
    (hpre : ∀ c ∈ pre, 2 ≤ c.length ∧ hasErrorAt c = false)
    (hshort : entry.length < 2) :
    decodeResponses (pre ++ entry :: post) = .crash
  ∧ ∀ e, decodeResponses (pre ++ entry :: post) ≠ .err e := by
  refine ⟨decodeResponses_crash_append pre post entry hpre hshort,
    fun e hc => ?_⟩
  rw [decodeResponses_crash_append pre post entry hpre hshort] at hc
  exact DecodeOutcome.noConfusion hc

/-- Instantiation of the short-entry theorem: a response whose first entry
is a well-formed triple and whose second entry is a one-element
error-tagged array panics instead of returning a decode error. -/
theorem invoke_batch_short_entry_panics_witness :
    (∀ c ∈ [[JValue.str "Mailbox/get", JValue.obj [("list", JValue.arr [])],
             JValue.str "r0"]], 2 ≤ c.length ∧ hasErrorAt c = false)
  ∧ ([JValue.str "error"] : List JValue).length < 2
  ∧ decodeResponses respShortEx = DecodeOutcome.crash :=
  ⟨by decide, by decide,
   (invoke_batch_short_entry_panics
      [[JValue.str "Mailbox/get", JValue.obj [("list", JValue.arr [])],
        JValue.str "r0"]]
      [] [JValue.str "error"] (by decide) (by decide)).1⟩

/-- Helper: an element produced by a conditional condition push comes from
applying the builder to the supplied value. -/
theorem mem_condOf {o : Option String} {f : String → JValue} {c : JValue}
    (h : c ∈ condOf o f) : ∃ x, c = f x := by
  cases o with
  | none => simp [condOf] at h
  | some v =>
    simp [condOf] at h
    exact ⟨v, h⟩

/-- Helper: every leaf condition built by search_emails is a one-field
object, so no single condition can be an AND wrapper. -/
theorem conditions_single_field (p : SearchParams) :
    ∀ c ∈ buildConditions p, ∃ k v, c = JValue.obj [(k, v)] := by
  intro c hc
  unfold buildConditions at hc
  simp only [List.mem_append] at hc
  rcases hc with ((((h | h) | h) | h) | h) <;>
    obtain ⟨x, rfl⟩ := mem_condOf h <;> exact ⟨_, _, rfl⟩

/-- C2: the filter sent by the search tool collapses per the number of
built leaf conditions: the empty object for zero, the bare condition for
exactly one, an AND wrapper over all the conditions for two or more, and
an AND wrapper it sends always has at least two children. -/
theorem search_filter_collapse (p : SearchParams) :
    (buildConditions p = [] → searchFilter p = JValue.obj [])
  ∧ (∀ c, buildConditions p = [c] → searchFilter p = c)
  ∧ (2 ≤ (buildConditions p).length →
      searchFilter p = JValue.obj [("operator", JValue.str "AND"),
        ("conditions", JValue.arr (buildConditions p))])
  ∧ (∀ cs, searchFilter p = JValue.obj [("operator", JValue.str "AND"),
        ("conditions", JValue.arr cs)] → 2 ≤ cs.length) := by
  refine ⟨?_, ?_, ?_, ?_⟩
  · intro h; unfold searchFilter; rw [h]; rfl
  · intro c h; unfold searchFilter; rw [h]; rfl
  · intro h
    unfold searchFilter
    cases hb : buildConditions p with
    | nil => rw [hb] at h; simp at h
    | cons a t =>
      cases t with
      | nil => rw [hb] at h; simp at h
      | cons b u => rfl
  · intro cs h
    unfold searchFilter at h
    cases hb : buildConditions p with
    | nil =>
      rw [hb] at h
      simp [buildFilter] at h
    | cons a t =>
      cases t with
      | nil =>
        rw [hb] at h
        have ha : a ∈ buildConditions p := by rw [hb]; simp
        obtain ⟨k, v, rfl⟩ := conditions_single_field p a ha
        simp only [buildFilter] at h
        simp at h
      | cons b u =>
        rw [hb] at h
        simp only [buildFilter] at h
        simp at h
        subst h
        simp only [List.length_cons]
        omega

/-- Instantiation of the filter-collapse theorem at parameter sets with
zero, one and two supplied conditions. -/
theorem search_filter_collapse_witness :
    searchFilter pEx0 = JValue.obj []
  ∧ searchFilter pEx1 = JValue.obj [("text", JValue.str "hello")]
  ∧ 2 ≤ (buildConditions pEx2).length
  ∧ searchFilter pEx2 = JValue.obj [("operator", JValue.str "AND"),
      ("conditions", JValue.arr (buildConditions pEx2))] :=
  ⟨(search_filter_collapse pEx0).1 rfl,
   (search_filter_collapse pEx1).2.1 _ rfl,
   by decide,
   (search_filter_collapse pEx2).2.2.1 (by decide)⟩

/-- C8: connect on a decoded session payload fails with the
missing-mail-account error when the primary-accounts map lacks the mail
capability, fails with the consistency error when the resolved primary
account is not a key of the accounts map, and any constructed client is
bound to exactly the mail primary account, which is present in the
accounts map. -/
theorem connect_resolves_primary_mail_account (s : Session) (u pw : String) :
    (s.primary_accounts.lookup "urn:ietf:params:jmap:mail" = none →
      connect s u pw = .error .noMailAccount)
  ∧ (∀ aid, s.primary_accounts.lookup "urn:ietf:params:jmap:mail" = some aid →
      s.accounts.lookup aid = none →
      connect s u pw = .error (.accountInconsistent aid))
  ∧ (∀ c, connect s u pw = .ok c →
      s.primary_accounts.lookup "urn:ietf:params:jmap:mail" = some c.account_id
      ∧ (s.accounts.lookup c.account_id).isSome = true) := by
  refine ⟨?_, ?_, ?_⟩
  · intro h; simp [connect, h]
  · intro aid h1 h2
    simp [connect, h1, h2]
  · intro c h
    cases hl : s.primary_accounts.lookup "urn:ietf:params:jmap:mail" with
    | none => simp [connect, hl] at h
    | some aid =>
      by_cases hs : (s.accounts.lookup aid).isSome = true
      · have h' : Except.ok (JmapClient.mk s.api_url u pw aid)
            = (Except.ok c : Except ConnectError JmapClient) := by
          rw [← h]; simp [connect, hl, hs]
        obtain rfl := Except.ok.inj h'
        exact ⟨rfl, hs⟩
      · simp [connect, hl, hs] at h

/-- Instantiation of the connect theorem at a session without a mail
primary account and at one whose primary account is missing from the
accounts map. -/
theorem connect_resolves_primary_mail_account_witness :
    connect sessionNoMail "u" "pw" = Except.error ConnectError.noMailAccount
  ∧ connect sessionInconsistent "u" "pw"
      = Except.error (ConnectError.accountInconsistent "acc-2") :=
  ⟨(connect_resolves_primary_mail_account sessionNoMail "u" "pw").1 rfl,
   (connect_resolves_primary_mail_account sessionInconsistent "u" "pw").2.1
     "acc-2" rfl rfl⟩

/-- Helper: identity resolution fails only with its fixed context
message. -/
theorem get_identity_id_error_msg {r : JValue} {e : String}
    (h : get_identity_id r = .error e) :
    e = "no identity found for this account" := by
  unfold get_identity_id at h
  split at h
  · exact (Except.error.inj h).symm
  · split at h
    · exact (Except.error.inj h).symm
    · split at h
      · exact (Except.error.inj h).symm
      · exact Except.noConfusion h

/-- Helper: drafts-mailbox resolution fails only with its fixed context
message. -/
theorem get_drafts_mailbox_id_error_msg {r : JValue} {e : String}
    (h : get_drafts_mailbox_id r = .error e) :
    e = "no drafts mailbox found" := by
  unfold get_drafts_mailbox_id at h
  split at h
  · exact (Except.error.inj h).symm
  · split at h
    · exact (Except.error.inj h).symm
    · split at h
      · exact (Except.error.inj h).symm
      · exact Except.noConfusion h

/-- C6 counterexample: in a send run where both resolutions would succeed,
the first network call issued is the identity listing, not the mailbox
listing — the drafts mailbox id is not resolved first. -/
theorem send_resolution_order_counterexample :
    (send_email envOk "acc-1" "me@example.org" ["you@example.org"]
        "subject" "body" [] []).trace.head? = some SendStep.identityGet
  ∧ (send_email envOk "acc-1" "me@example.org" ["you@example.org"]
        "subject" "body" [] []).trace.head? ≠ some SendStep.mailboxGet := by
  decide

/-- C6 amended: send resolves the identity id first (failing with the
no-identity error before any mailbox call), then the drafts mailbox id
(failing with the no-drafts-mailbox error), and only after both
resolutions succeed does it build and submit the two-call batch. -/
theorem send_resolution_order (env : SendEnv) (account_id fromAddr : String)
    (toRcpt : List String) (subject body : String) (cc bcc : List String) :
    (∃ e, get_identity_id env.identityResp = .error e
      ∧ (send_email env account_id fromAddr toRcpt subject body cc bcc).trace
          = [SendStep.identityGet]
      ∧ (send_email env account_id fromAddr toRcpt subject body cc bcc).batchRequest
          = none
      ∧ (send_email env account_id fromAddr toRcpt subject body cc bcc).result
          = .error (.msg "no identity found for this account"))
  ∨ (∃ i e, get_identity_id env.identityResp = .ok i
      ∧ get_drafts_mailbox_id env.mailboxResp = .error e
      ∧ (send_email env account_id fromAddr toRcpt subject body cc bcc).trace
          = [SendStep.identityGet, SendStep.mailboxGet]
      ∧ (send_email env account_id fromAddr toRcpt subject body cc bcc).batchRequest
          = none
      ∧ (send_email env account_id fromAddr toRcpt subject body cc bcc).result
          = .error (.msg "no drafts mailbox found"))
  ∨ (∃ i d, get_identity_id env.identityResp = .ok i
      ∧ get_drafts_mailbox_id env.mailboxResp = .ok d
      ∧ (send_email env account_id fromAddr toRcpt subject body cc bcc).trace
          = [SendStep.identityGet, SendStep.mailboxGet, SendStep.submitBatch]
      ∧ (send_email env account_id fromAddr toRcpt subject body cc bcc).batchRequest.isSome
          = true) := by
  cases hi : get_identity_id env.identityResp with
  | error e =>
    obtain rfl := get_identity_id_error_msg hi
    exact Or.inl ⟨_, rfl, by simp [send_email, hi], by simp [send_email, hi],
      by simp [send_email, hi]⟩
  | ok i =>
    cases hd : get_drafts_mailbox_id env.mailboxResp with
    | error e =>
      obtain rfl := get_drafts_mailbox_id_error_msg hd
      exact Or.inr (Or.inl ⟨i, _, rfl, rfl, by simp [send_email, hi, hd],
        by simp [send_email, hi, hd], by simp [send_email, hi, hd]⟩)
    | ok d =>
      exact Or.inr (Or.inr ⟨i, d, rfl, rfl, by simp [send_email, hi, hd],
        by simp [send_email, hi, hd]⟩)

end Stalwart
